import Mathlib

/-! Verification of the BotTelegramZurich network-liveness monitor.

This file gives a shallow embedding of the monitoring core of `src/main.py`
(with `src/main_alternative.py` where a claim cites it) and proves the spec's
claims about it:

* `monitoreo_host` — the per-host debounce/alert state machine;
* `ping` — the reachability prober and its exception handling;
* the host registry (`hosts` / `estados`), the add/remove flows
  (`recibir_ip`, `confirmar_agregar`, `confirmar_eliminar`) and the
  persistence layer (`guardar_hosts`, `cargar_hosts`);
* the thread-spawning behavior of the control plane (`manejar_mensaje`).

Python dictionaries are modelled as insertion-ordered association lists over
`String` keys; timestamps (`time.time()`) are modelled as integers; the file
system is modelled as a pair of optional snapshot contents.
-/

namespace ZurichBot

/-- The four monitoring groups fixed in `main.py` (`hosts` is a dict with
exactly these keys). -/
inductive Grupo where
  | cctv
  | servers
  | switches
  | corporativo
deriving DecidableEq

/-- A Python `dict` with string keys, as an insertion-ordered association
list. -/
abbrev Dict (α : Type) := List (String × α)

/-- Key list of a dict, in insertion order. -/
def claves {α : Type} : Dict α → List String
  | [] => []
  | p :: rest => p.1 :: claves rest

/-- Python `k in d`. -/
def contieneClave {α : Type} (d : Dict α) (k : String) : Bool :=
  match d with
  | [] => false
  | p :: rest => if p.1 = k then true else contieneClave rest k

/-- Python `d[k]` as an option (lookup of the first binding of `k`). -/
def busca {α : Type} (d : Dict α) (k : String) : Option α :=
  match d with
  | [] => none
  | p :: rest => if p.1 = k then some p.2 else busca rest k

/-- Python `d[k] = v`: replace the binding in place if the key exists,
otherwise append it (insertion-order semantics). -/
def asigna {α : Type} (d : Dict α) (k : String) (v : α) : Dict α :=
  match d with
  | [] => [(k, v)]
  | p :: rest => if p.1 = k then (k, v) :: rest else p :: asigna rest k v

/-- Python `d.update(e)`: assign every binding of `e` into `d`, in order. -/
def actualiza {α : Type} (d e : Dict α) : Dict α :=
  match e with
  | [] => d
  | p :: rest => actualiza (asigna d p.1 p.2) rest

/-- Python `del d[k]`. -/
def borra {α : Type} (d : Dict α) (k : String) : Dict α :=
  match d with
  | [] => []
  | p :: rest => if p.1 = k then borra rest k else p :: borra rest k

-- ================= MONITOREO: the per-host debounce state machine =================

/-- Constant `MAX_FALLOS = 5` in `main.py`: the consecutive-failure threshold. -/
def MAX_FALLOS : Nat := 5

/-- Constant `INTERVALO_ALERTA_PERSISTENTE = 600` seconds in `main.py`. -/
def INTERVALO_ALERTA_PERSISTENTE : ℤ := 600

/-- The per-host entry of `estados[grupo]["estado_hosts"][ip]`:
`{"activo": bool, "fallos": int, "ultima_alerta": float}`. -/
structure EstadoHost where
  activo : Bool
  fallos : Nat
  ultima_alerta : ℤ
deriving DecidableEq

/-- The fresh per-host state `{"activo": True, "fallos": 0, "ultima_alerta": 0}`
used at bootstrap, on load and on add-host. -/
def estadoHostInicial : EstadoHost := ⟨true, 0, 0⟩

/-- The kind of alert message pushed onto `alert_queue` by `monitoreo_host`. -/
inductive Alerta where
  | caida        -- "¡ALERTA! ... NO responde" : initial DOWN alert
  | persistente  -- "¡ALERTA PERSISTENTE! ... sigue sin responder"
  | recuperado   -- "RECUPERADO ... ha vuelto a responder"
deriving DecidableEq

/-- Function `monitoreo_host` (`main.py` lines 164-196), restricted to one host's state:
given the previous `EstadoHost`, the probe outcome `estado_actual` and
`current_time`, it returns the updated state together with the list of alerts
put on `alert_queue` during the call (the queue receives at most one message
per call). -/
def monitoreo_host (s : EstadoHost) (estado_actual : Bool) (current_time : ℤ) :
    EstadoHost × List Alerta :=
  let estado_anterior := s.activo
  let fallos := s.fallos
  let ultima_alerta := s.ultima_alerta
  if !estado_actual then
    let fallos := fallos + 1
    if fallos ≥ MAX_FALLOS then
      if estado_anterior then
        (⟨false, fallos, current_time⟩, [Alerta.caida])
      else if current_time - ultima_alerta ≥ INTERVALO_ALERTA_PERSISTENTE then
        (⟨estado_anterior, fallos, current_time⟩, [Alerta.persistente])
      else
        (⟨estado_anterior, fallos, ultima_alerta⟩, [])
    else
      (⟨estado_anterior, fallos, ultima_alerta⟩, [])
  else
    if !estado_anterior then
      (⟨true, 0, current_time⟩, [Alerta.recuperado])
    else
      (⟨estado_anterior, 0, ultima_alerta⟩, [])

/-- A host state is coherent when a dead host carries at least `MAX_FALLOS`
recorded failures.  This holds of every reachable state: the initial and
freshly-added states are alive, the down transition stores the failure count
that just reached the threshold, failures only increase it while down, and a
success revives the host. -/
def EstadoCoherente (s : EstadoHost) : Prop :=
  s.activo = false → MAX_FALLOS ≤ s.fallos

instance (s : EstadoHost) : Decidable (EstadoCoherente s) := by
  unfold EstadoCoherente; infer_instance

-- ================= IP ADDRESSES =================
-- Model of the fragment of Python `ipaddress` used by the bot: `ip_address`
-- parses an IPv4 dotted-quad or an IPv6 literal (raising `ValueError`,
-- modelled as `none`, otherwise) and `str` renders the canonical lowercase,
-- zero-compressed form.

/-- An address value returned by `ipaddress.ip_address`. -/
inductive DireccionIp where
  | v4 (a b c d : Nat)
  | v6 (palabras : List Nat)
deriving DecidableEq

/-- Value of a hexadecimal digit, both cases accepted. -/
def valorHex (c : Char) : Option Nat :=
  if '0' ≤ c ∧ c ≤ '9' then some (c.toNat - 48)
  else if 'a' ≤ c ∧ c ≤ 'f' then some (c.toNat - 87)
  else if 'A' ≤ c ∧ c ≤ 'F' then some (c.toNat - 55)
  else none

/-- Value of a decimal digit. -/
def valorDec (c : Char) : Option Nat :=
  if '0' ≤ c ∧ c ≤ '9' then some (c.toNat - 48) else none

/-- Python `str.split(sep)` on a character list. -/
def separaPor (sep : Char) : List Char → List (List Char)
  | [] => [[]]
  | c :: cs =>
    match separaPor sep cs with
    | [] => if c = sep then [[], []] else [[c]]
    | g :: gs => if c = sep then [] :: g :: gs else (c :: g) :: gs

/-- Split at the first occurrence of a double colon, if any. -/
def parteDoblePuntos : List Char → Option (List Char × List Char)
  | [] => none
  | [_] => none
  | c :: c' :: cs =>
    if c = ':' ∧ c' = ':' then some ([], cs)
    else
      match parteDoblePuntos (c' :: cs) with
      | none => none
      | some (l, r) => some (c :: l, r)

/-- All characters read as hex digits, or `none`. -/
def valoresHex : List Char → Option (List Nat)
  | [] => some []
  | c :: cs =>
    match valorHex c, valoresHex cs with
    | some v, some vs => some (v :: vs)
    | _, _ => none

/-- All characters read as decimal digits, or `none`. -/
def valoresDec : List Char → Option (List Nat)
  | [] => some []
  | c :: cs =>
    match valorDec c, valoresDec cs with
    | some v, some vs => some (v :: vs)
    | _, _ => none

/-- One 16-bit IPv6 group: one to four hex digits. -/
def grupoHex (g : List Char) : Option Nat :=
  if 1 ≤ g.length ∧ g.length ≤ 4 then
    (valoresHex g).map (fun vs => vs.foldl (fun a d => a * 16 + d) 0)
  else none

/-- All textual groups as 16-bit words, or `none`. -/
def gruposHex : List (List Char) → Option (List Nat)
  | [] => some []
  | g :: gs =>
    match grupoHex g, gruposHex gs with
    | some w, some ws => some (w :: ws)
    | _, _ => none

/-- IPv6 literal parsing: eight colon-separated groups, or two runs joined by
one double colon standing for the missing zero groups. -/
def analizaIPv6 (cs : List Char) : Option (List Nat) :=
  match parteDoblePuntos cs with
  | none =>
    let gs := separaPor ':' cs
    if gs.length = 8 then gruposHex gs else none
  | some (l, r) =>
    if (parteDoblePuntos r).isSome then none
    else
      match (if l.isEmpty then some [] else gruposHex (separaPor ':' l)),
            (if r.isEmpty then some [] else gruposHex (separaPor ':' r)) with
      | some ws1, some ws2 =>
        if ws1.length + ws2.length ≤ 7 then
          some (ws1 ++ List.replicate (8 - ws1.length - ws2.length) 0 ++ ws2)
        else none
      | _, _ => none

/-- One IPv4 octet: one to three decimal digits, value at most 255, no
leading zero (Python rejects ambiguous-octal spellings). -/
def octeto (g : List Char) : Option Nat :=
  if 1 ≤ g.length ∧ g.length ≤ 3 then
    match valoresDec g with
    | none => none
    | some ds =>
      let v := ds.foldl (fun a d => a * 10 + d) 0
      if v ≤ 255 ∧ (g.length = 1 ∨ g.headD '0' ≠ '0') then some v else none
  else none

/-- IPv4 dotted-quad parsing. -/
def analizaIPv4 (cs : List Char) : Option (Nat × Nat × Nat × Nat) :=
  match separaPor '.' cs with
  | [a, b, c, d] =>
    match octeto a, octeto b, octeto c, octeto d with
    | some x, some y, some z, some w => some (x, y, z, w)
    | _, _, _, _ => none
  | _ => none

/-- Python `ipaddress.ip_address(s)`; `none` models the `ValueError` raised
on a malformed literal. -/
def ip_address (s : String) : Option DireccionIp :=
  match analizaIPv4 s.data with
  | some (a, b, c, d) => some (DireccionIp.v4 a b c d)
  | none => (analizaIPv6 s.data).map DireccionIp.v6

/-- Lowercase hexadecimal digit character. -/
def digitoHex (n : Nat) : Char :=
  if n < 10 then Char.ofNat (48 + n) else Char.ofNat (87 + n)

/-- Canonical text of a 16-bit word: lowercase hex, no leading zeros. -/
def palabraHex (n : Nat) : List Char :=
  match [n / 4096 % 16, n / 256 % 16, n / 16 % 16, n % 16].dropWhile
      (fun d => d == 0) with
  | [] => ['0']
  | ds => ds.map digitoHex

/-- Decimal text of an IPv4 octet. -/
def octetoTexto (n : Nat) : List Char :=
  match [n / 100 % 10, n / 10 % 10, n % 10].dropWhile (fun d => d == 0) with
  | [] => ['0']
  | ds => ds.map (fun d => Char.ofNat (48 + d))

/-- Length of the leading run of zeros. -/
def prefijoCeros : List Nat → Nat
  | [] => 0
  | w :: ws => if w = 0 then prefijoCeros ws + 1 else 0

/-- Start index and length of the longest run of zero words, leftmost run
winning ties (Python's double-colon choice). -/
def mejorRachaCeros : List Nat → Nat → Nat × Nat
  | [], _ => (0, 0)
  | w :: ws, i =>
    let aqui := prefijoCeros (w :: ws)
    let (bs, bl) := mejorRachaCeros ws (i + 1)
    if bl ≤ aqui then (i, aqui) else (bs, bl)

/-- Join character groups with a separator. -/
def intercala (sep : Char) : List (List Char) → List Char
  | [] => []
  | [g] => g
  | g :: gs => g ++ sep :: intercala sep gs

/-- Canonical IPv6 text: compress the best zero run when longer than one
group. -/
def textoIPv6 (ws : List Nat) : List Char :=
  let br := mejorRachaCeros ws 0
  if br.2 ≤ 1 then intercala ':' (ws.map palabraHex)
  else
    intercala ':' ((ws.take br.1).map palabraHex) ++ [':', ':'] ++
      intercala ':' ((ws.drop (br.1 + br.2)).map palabraHex)

/-- Python `str(ip_address(...))`: the canonical text of an address. -/
def textoIp : DireccionIp → String
  | DireccionIp.v4 a b c d =>
    String.mk (intercala '.' [octetoTexto a, octetoTexto b, octetoTexto c, octetoTexto d])
  | DireccionIp.v6 ws => String.mk (textoIPv6 ws)

-- ================= PING =================

/-- Outcome of the `subprocess.call` invocation inside `ping`: the probe
command ran and exited with a code (a timed-out ping exits nonzero thanks to
its `-w` deadline), or the call raised `subprocess.SubprocessError`, or the
call raised `OSError` — e.g. `FileNotFoundError` when the probe binary
(`ping6`, say) is missing — which is not a `SubprocessError` subclass. -/
inductive ResultadoSubproceso where
  | codigo (c : Int)
  | errorSubproceso
  | errorOS
deriving DecidableEq

/-- The exception kinds the `try` block of `ping` can raise.  Only the first
two appear in the `except (subprocess.SubprocessError, ValueError)` clause;
an `OSError` from `subprocess.call` is not caught and escapes `ping`. -/
inductive ErrorPing where
  | valueError
  | subprocessError
  | osError
deriving DecidableEq

/-- The probe command of `main.py` line 83 (on a POSIX host, so the count
flag is `-c`): `ping6` for a version-6 address, `ping` otherwise. -/
def comando_ping (a : DireccionIp) (ip : String) : List String :=
  match a with
  | DireccionIp.v6 _ => ["ping6", "-c", "1", "-w", "2000", ip]
  | DireccionIp.v4 _ _ _ _ => ["ping", "-c", "1", "-w", "2000", ip]

/-- The `try` block of `ping` (`main.py` lines 80-87): parse the address
(`ValueError` on failure), run the probe command (which may raise a
`SubprocessError` or an `OSError`), return whether the exit code is zero. -/
def pingIntenta (ip : String) (sub : ResultadoSubproceso) : Except ErrorPing Bool :=
  match ip_address ip with
  | none => Except.error ErrorPing.valueError
  | some a =>
    let _ := comando_ping a ip
    match sub with
    | ResultadoSubproceso.errorSubproceso => Except.error ErrorPing.subprocessError
    | ResultadoSubproceso.errorOS => Except.error ErrorPing.osError
    | ResultadoSubproceso.codigo c => Except.ok (c == 0)

/-- Function `ping` (`main.py` lines 78-90): the `try` block with its `except
(subprocess.SubprocessError, ValueError)` handler returning `False`.  The
handler covers exactly those two exception kinds, so an `OSError` raised by
the command invocation propagates to the caller. -/
def ping (ip : String) (sub : ResultadoSubproceso) : Except ErrorPing Bool :=
  match pingIntenta ip sub with
  | Except.ok b => Except.ok b
  | Except.error ErrorPing.valueError => Except.ok false
  | Except.error ErrorPing.subprocessError => Except.ok false
  | Except.error ErrorPing.osError => Except.error ErrorPing.osError

/-- Function `ping` of `src/main_alternative.py` lines 70-81: identical control flow
and the identical `except (subprocess.SubprocessError, ValueError)` clause;
it differs only in the probe deadline (`-w 300`) and in discarding the
subprocess output. -/
def ping_alternativo (ip : String) (sub : ResultadoSubproceso) : Except ErrorPing Bool :=
  match pingIntenta ip sub with
  | Except.ok b => Except.ok b
  | Except.error ErrorPing.valueError => Except.ok false
  | Except.error ErrorPing.subprocessError => Except.ok false
  | Except.error ErrorPing.osError => Except.error ErrorPing.osError

-- ================= REGISTRY AND CONTROL PLANE =================

/-- Modelled from the spec: the baked-in initial CCTV host set `hosts_cctv`
is imported from `hosts.py`, which is not under `src/`; the spec fixes only
that each group has a baked-in address→name map, so one representative entry
stands for the unknown contents. -/
def hosts_cctv : Dict String := [("192.168.0.10", "Camara1")]

/-- Modelled from the spec: baked-in initial server host set (see
`hosts_cctv`). -/
def hosts_servers : Dict String := [("10.0.0.1", "Servidor1")]

/-- Modelled from the spec: baked-in initial switch host set (see
`hosts_cctv`). -/
def hosts_switches : Dict String := [("10.0.1.1", "Switch1")]

/-- Modelled from the spec: baked-in initial corporate host set (see
`hosts_cctv`). -/
def hosts_corporativo : Dict String := [("10.0.2.1", "Corp1")]

/-- The per-group slot of `estados`:
`{"activo": bool, "estado_hosts": {ip: EstadoHost}}`. -/
structure EstadoGrupo where
  activo : Bool
  estado_hosts : Dict EstadoHost

/-- The shared mutable registry of `main.py`: the `hosts` dict and the
`estados` dict, both keyed by the four groups. -/
structure Sistema where
  hosts : Grupo → Dict String
  estados : Grupo → EstadoGrupo

/-- Bootstrap of `estados` (`main.py` lines 64-69): every group enabled and a
fresh `EstadoHost` per host of the group. -/
def estadosDe (h : Grupo → Dict String) : Grupo → EstadoGrupo :=
  fun g => ⟨true, (h g).map (fun p => (p.1, estadoHostInicial))⟩

/-- Registry bootstrap from given initial host sets. -/
def sistemaDe (h : Grupo → Dict String) : Sistema :=
  ⟨h, estadosDe h⟩

/-- The baked-in `hosts` dict of `main.py` lines 57-62. -/
def hostsIniciales : Grupo → Dict String
  | Grupo.cctv => hosts_cctv
  | Grupo.servers => hosts_servers
  | Grupo.switches => hosts_switches
  | Grupo.corporativo => hosts_corporativo

/-- The in-memory state right after module initialization of `main.py`. -/
def sistemaInicial : Sistema := sistemaDe hostsIniciales

/-- Reply of `recibir_ip` (`main.py` lines 469-494): reject a malformed
literal, reject a duplicate, otherwise store the canonical spelling in
`context.user_data` and ask for the name. -/
inductive RespuestaIp where
  | ipInvalida
  | ipDuplicada
  | pedirNombre (ipCanonica : String)
deriving DecidableEq

/-- Handler `recibir_ip` (`main.py` lines 469-494): parse the entered text with
`ipaddress.ip_address`, test the RAW entered string for membership in
`hosts[grupo]`, and on acceptance keep `str(ip_addr)` for the later
`confirmar_agregar`. -/
def recibir_ip (hostsGrupo : Dict String) (entrada : String) : RespuestaIp :=
  match ip_address entrada with
  | none => RespuestaIp.ipInvalida
  | some a =>
    if contieneClave hostsGrupo entrada then RespuestaIp.ipDuplicada
    else RespuestaIp.pedirNombre (textoIp a)

/-- The registry mutation of `confirmar_agregar` (`main.py` lines 551-553):
assign the host into `hosts[grupo]` and a fresh state into
`estados[grupo]["estado_hosts"]`. -/
def confirmar_agregar (s : Sistema) (g : Grupo) (ip nombre : String) : Sistema where
  hosts := fun g' => if g' = g then asigna (s.hosts g) ip nombre else s.hosts g'
  estados := fun g' =>
    if g' = g then
      ⟨(s.estados g).activo, asigna (s.estados g).estado_hosts ip estadoHostInicial⟩
    else s.estados g'

/-- The registry mutation of `confirmar_eliminar` (`main.py` lines 693-696):
delete the address from both dicts when present, otherwise change nothing. -/
def confirmar_eliminar (s : Sistema) (g : Grupo) (ip : String) : Sistema :=
  if contieneClave (s.hosts g) ip then
    { hosts := fun g' => if g' = g then borra (s.hosts g) ip else s.hosts g',
      estados := fun g' =>
        if g' = g then ⟨(s.estados g).activo, borra (s.estados g).estado_hosts ip⟩
        else s.estados g' }
  else s

/-- Key-set agreement between `hosts[g]` and
`estados[g]["estado_hosts"]`. -/
def clavesIguales (s : Sistema) : Prop :=
  ∀ g, claves (s.hosts g) = claves ((s.estados g).estado_hosts)

-- ================= PERSISTENCE =================

/-- Parsed content of `hosts_persistentes.json`: per group name, the persisted
address→name map when that key is present in the JSON object. -/
def Datos : Type := Grupo → Option (Dict String)

/-- The value `json.dump(hosts, f)` writes: all four group maps, addresses
and display names only — no `estados` data is an input of the write. -/
def serializa (h : Grupo → Dict String) : Datos := fun g => some (h g)

/-- The two files of the persistence layer: `hosts_persistentes.json` and
`hosts_persistentes_backup.json`, each either absent or holding parsed
content. -/
structure Archivos where
  persistencia : Option Datos
  respaldo : Option Datos

/-- Function `guardar_hosts` (`main.py` lines 127-147): when the snapshot file exists
its bytes are first copied to the backup file, then the snapshot is
overwritten with the serialization of the current `hosts`; with no prior
snapshot the backup is not touched. -/
def guardar_hosts (fs : Archivos) (h : Grupo → Dict String) : Archivos where
  persistencia := some (serializa h)
  respaldo := if fs.persistencia.isSome then fs.persistencia else fs.respaldo

/-- Function `cargar_hosts` (`main.py` lines 149-161) acting on the in-memory
registry: reading `none` (missing or malformed file) keeps the baked-in
data; otherwise, for each group present in the parsed data, update the
group's host map with the persisted entries and its state map with a fresh
`EstadoHost` for every persisted address. -/
def cargar_hosts (s : Sistema) (archivo : Option Datos) : Sistema :=
  match archivo with
  | none => s
  | some datos =>
    { hosts := fun g =>
        match datos g with
        | some dg => actualiza (s.hosts g) dg
        | none => s.hosts g,
      estados := fun g =>
        match datos g with
        | some dg =>
          ⟨(s.estados g).activo,
            actualiza (s.estados g).estado_hosts
              (dg.map (fun p => (p.1, estadoHostInicial)))⟩
        | none => s.estados g }

-- ================= SCHEDULER LOOPS =================

/-- The control-plane state that governs loop spawning in `main.py`: the
`monitoreo_global` flag, each group's `estados[grupo]["activo"]` flag, and
the number of live `monitoreo_grupo_thread` loops per group. -/
structure Monitoreo where
  monitoreo_global : Bool
  grupo_activo : Grupo → Bool
  hilos : Grupo → Nat

/-- Boot state of `main.py`: monitoring stopped (`monitoreo_global = False`),
every group enabled, no loop thread running. -/
def monitoreoInicial : Monitoreo := ⟨false, fun _ => true, fun _ => 0⟩

/-- One step of the system: the three `manejar_mensaje` commands that touch
the loops, plus a loop observing its stop condition.  `iniciar_todo`
(`main.py` lines 320-330) sets the global flag and unconditionally spawns one
`monitoreo_grupo_thread` per enabled group; `alternar_grupo` (lines 397-406)
toggles the group flag and spawns a thread when the new flag and the global
flag are both set; a running loop exits only when it observes its group
disabled or the global flag cleared (lines 201-205). -/
inductive Paso : Monitoreo → Monitoreo → Prop where
  | iniciar_todo (s : Monitoreo) :
      Paso s ⟨true, s.grupo_activo,
        fun g => if s.grupo_activo g then s.hilos g + 1 else s.hilos g⟩
  | detener_todo (s : Monitoreo) :
      Paso s ⟨false, s.grupo_activo, s.hilos⟩
  | alternar_grupo (s : Monitoreo) (g : Grupo) :
      Paso s ⟨s.monitoreo_global,
        fun g' => if g' = g then !(s.grupo_activo g) else s.grupo_activo g',
        fun g' =>
          if g' = g ∧ s.grupo_activo g = false ∧ s.monitoreo_global = true then
            s.hilos g + 1
          else s.hilos g'⟩
  | hilo_termina (s : Monitoreo) (g : Grupo)
      (hpara : s.grupo_activo g = false ∨ s.monitoreo_global = false)
      (hvivo : 0 < s.hilos g) :
      Paso s ⟨s.monitoreo_global, s.grupo_activo,
        fun g' => if g' = g then s.hilos g - 1 else s.hilos g'⟩

/-- States reachable from boot by control commands and loop exits. -/
def Alcanzable (s : Monitoreo) : Prop :=
  Relation.ReflTransGen Paso monitoreoInicial s

/-- Branch of `monitoreo_host`: failure whose accumulated count stays below
the threshold — the count is stored, nothing else changes, no alert. -/
theorem monitoreo_host_fallo_bajo (s : EstadoHost) (t : ℤ)
    (hf : s.fallos + 1 < MAX_FALLOS) :
    monitoreo_host s false t = (⟨s.activo, s.fallos + 1, s.ultima_alerta⟩, []) := by
  have h : ¬ MAX_FALLOS ≤ s.fallos + 1 := by omega
  simp [monitoreo_host, h]

/-- Branch of `monitoreo_host`: failure reaching the threshold on an alive
host — the DOWN transition. -/
theorem monitoreo_host_caida (s : EstadoHost) (t : ℤ)
    (ha : s.activo = true) (hf : MAX_FALLOS ≤ s.fallos + 1) :
    monitoreo_host s false t = (⟨false, s.fallos + 1, t⟩, [Alerta.caida]) := by
  simp [monitoreo_host, ha, hf]

/-- Branch of `monitoreo_host`: failure at or past the threshold on a down
host with the persistent cooldown satisfied. -/
theorem monitoreo_host_persistente (s : EstadoHost) (t : ℤ)
    (ha : s.activo = false) (hf : MAX_FALLOS ≤ s.fallos + 1)
    (hcd : INTERVALO_ALERTA_PERSISTENTE ≤ t - s.ultima_alerta) :
    monitoreo_host s false t = (⟨false, s.fallos + 1, t⟩, [Alerta.persistente]) := by
  simp [monitoreo_host, ha, hf, hcd]

/-- Branch of `monitoreo_host`: failure at or past the threshold on a down
host inside the cooldown window — absorbed silently. -/
theorem monitoreo_host_fallo_callado (s : EstadoHost) (t : ℤ)
    (ha : s.activo = false) (hf : MAX_FALLOS ≤ s.fallos + 1)
    (hcd : ¬ INTERVALO_ALERTA_PERSISTENTE ≤ t - s.ultima_alerta) :
    monitoreo_host s false t = (⟨false, s.fallos + 1, s.ultima_alerta⟩, []) := by
  simp [monitoreo_host, ha, hf, hcd]

/-- Branch of `monitoreo_host`: success on a down host — recovery. -/
theorem monitoreo_host_revive (s : EstadoHost) (t : ℤ) (ha : s.activo = false) :
    monitoreo_host s true t = (⟨true, 0, t⟩, [Alerta.recuperado]) := by
  simp [monitoreo_host, ha]

/-- Branch of `monitoreo_host`: success on an alive host — silent reset. -/
theorem monitoreo_host_exito_vivo (s : EstadoHost) (t : ℤ) (ha : s.activo = true) :
    monitoreo_host s true t = (⟨true, 0, s.ultima_alerta⟩, []) := by
  simp [monitoreo_host, ha]

/-- The coherence invariant holds initially and is preserved by every call of
`monitoreo_host`. -/
theorem estadoCoherente_invariante (s : EstadoHost) (r : Bool) (t : ℤ)
    (h : EstadoCoherente s) :
    EstadoCoherente estadoHostInicial ∧ EstadoCoherente (monitoreo_host s r t).1 := by
  constructor
  · intro hc
    simp [estadoHostInicial] at hc
  · cases r with
    | false =>
      by_cases hf : MAX_FALLOS ≤ s.fallos + 1
      · cases ha : s.activo with
        | false =>
          by_cases hcd : INTERVALO_ALERTA_PERSISTENTE ≤ t - s.ultima_alerta
          · rw [monitoreo_host_persistente s t ha hf hcd]
            intro _; exact hf
          · rw [monitoreo_host_fallo_callado s t ha hf hcd]
            intro _; exact hf
        | true =>
          rw [monitoreo_host_caida s t ha hf]
          intro _; exact hf
      · rw [monitoreo_host_fallo_bajo s t (by omega)]
        intro hdead
        exact Nat.le_succ_of_le (h hdead)
    | true =>
      cases ha : s.activo with
      | false =>
        rw [monitoreo_host_revive s t ha]
        intro hdead; cases hdead
      | true =>
        rw [monitoreo_host_exito_vivo s t ha]
        intro hdead; cases hdead

/-- A closed instance of `estadoCoherente_invariante`. -/
theorem estadoCoherente_invariante_testigo :
    EstadoCoherente estadoHostInicial ∧
      EstadoCoherente (monitoreo_host ⟨false, 5, 0⟩ false 100).1 :=
  estadoCoherente_invariante ⟨false, 5, 0⟩ false 100 (by decide)

/-- C1: a host that is alive with `MAX_FALLOS - 1` recorded consecutive
failures goes down with exactly one DOWN alert on the next failed probe;
once down, a further failed probe never enqueues a DOWN alert and leaves the
host down; and a failed probe that keeps the accumulated count below the
threshold while the host is alive enqueues no alert at all. -/
theorem claim1_transicion_caida (s : EstadoHost) (t : ℤ) :
    (s.activo = true → s.fallos = MAX_FALLOS - 1 →
      monitoreo_host s false t = (⟨false, MAX_FALLOS, t⟩, [Alerta.caida])) ∧
    (s.activo = false →
      (monitoreo_host s false t).1.activo = false ∧
        Alerta.caida ∉ (monitoreo_host s false t).2) ∧
    (s.activo = true → s.fallos + 1 < MAX_FALLOS →
      monitoreo_host s false t = (⟨true, s.fallos + 1, s.ultima_alerta⟩, [])) := by
  refine ⟨fun ha hf => ?_, fun ha => ?_, fun ha hf => ?_⟩
  · rw [monitoreo_host_caida s t ha (by omega), hf]
    norm_num [MAX_FALLOS]
  · by_cases hf : MAX_FALLOS ≤ s.fallos + 1
    · by_cases hcd : INTERVALO_ALERTA_PERSISTENTE ≤ t - s.ultima_alerta
      · rw [monitoreo_host_persistente s t ha hf hcd]; simp
      · rw [monitoreo_host_fallo_callado s t ha hf hcd]; simp
    · rw [monitoreo_host_fallo_bajo s t (by omega)]
      simp [ha]
  · rw [monitoreo_host_fallo_bajo s t hf, ha]

/-- A closed instance of `claim1_transicion_caida`: at `fallos = 4` the next
failure produces the single DOWN alert, and a sub-threshold failure at
`fallos = 1` produces none. -/
theorem claim1_transicion_caida_testigo :
    monitoreo_host ⟨true, 4, 0⟩ false 11 = (⟨false, 5, 11⟩, [Alerta.caida]) ∧
      monitoreo_host ⟨true, 1, 7⟩ false 11 = (⟨true, 2, 7⟩, []) :=
  ⟨(claim1_transicion_caida ⟨true, 4, 0⟩ 11).1 rfl rfl,
   (claim1_transicion_caida ⟨true, 1, 7⟩ 11).2.2 rfl (by decide)⟩

/-- C2: for a down host in a reachable (coherent) state, a failed probe at
time `t` enqueues the PERSISTENT-DOWN alert exactly when
`t - ultima_alerta ≥ 600`, and `ultima_alerta` advances to `t` exactly when
that alert fires; consequently two failed rounds less than the cooldown apart
yield at most one such alert. -/
theorem claim2_alerta_persistente (s : EstadoHost) (t : ℤ)
    (ha : s.activo = false) (hc : EstadoCoherente s) :
    ((monitoreo_host s false t).2 = [Alerta.persistente] ↔
      INTERVALO_ALERTA_PERSISTENTE ≤ t - s.ultima_alerta) ∧
    ((monitoreo_host s false t).1.ultima_alerta =
      if INTERVALO_ALERTA_PERSISTENTE ≤ t - s.ultima_alerta then t
      else s.ultima_alerta) ∧
    (∀ t₂ : ℤ, t₂ - t < INTERVALO_ALERTA_PERSISTENTE →
      (monitoreo_host s false t).2 = [] ∨
        (monitoreo_host (monitoreo_host s false t).1 false t₂).2 = []) := by
  have hf1 : MAX_FALLOS ≤ s.fallos + 1 := Nat.le_succ_of_le (hc ha)
  refine ⟨?_, ?_, ?_⟩
  · by_cases hcd : INTERVALO_ALERTA_PERSISTENTE ≤ t - s.ultima_alerta
    · rw [monitoreo_host_persistente s t ha hf1 hcd]
      simp [hcd]
    · rw [monitoreo_host_fallo_callado s t ha hf1 hcd]
      simp [hcd]
  · by_cases hcd : INTERVALO_ALERTA_PERSISTENTE ≤ t - s.ultima_alerta
    · rw [monitoreo_host_persistente s t ha hf1 hcd, if_pos hcd]
    · rw [monitoreo_host_fallo_callado s t ha hf1 hcd, if_neg hcd]
  · intro t₂ ht
    by_cases hcd : INTERVALO_ALERTA_PERSISTENTE ≤ t - s.ultima_alerta
    · right
      rw [monitoreo_host_persistente s t ha hf1 hcd]
      exact congrArg Prod.snd
        (monitoreo_host_fallo_callado ⟨false, s.fallos + 1, t⟩ t₂ rfl
          (show MAX_FALLOS ≤ s.fallos + 1 + 1 by omega)
          (show ¬ INTERVALO_ALERTA_PERSISTENTE ≤ t₂ - t by omega))
    · left
      rw [monitoreo_host_fallo_callado s t ha hf1 hcd]

/-- A closed instance of `claim2_alerta_persistente`: a down host last alerted
at time 0 re-alerts on a failure at time 600. -/
theorem claim2_alerta_persistente_testigo :
    (monitoreo_host ⟨false, 5, 0⟩ false 600).2 = [Alerta.persistente] :=
  ((claim2_alerta_persistente ⟨false, 5, 0⟩ 600 rfl (by decide)).1).2 (by decide)

/-- C3: a successful probe always resets `fallos` to 0; if the host was down
it revives it, stamps `ultima_alerta := now` and enqueues exactly one
RECOVERED alert; if the host was already alive nothing else changes and no
alert is enqueued, whatever the accumulated failure count was. -/
theorem claim3_recuperacion (s : EstadoHost) (t : ℤ) :
    (s.activo = false →
      monitoreo_host s true t = (⟨true, 0, t⟩, [Alerta.recuperado])) ∧
    (s.activo = true →
      monitoreo_host s true t = (⟨true, 0, s.ultima_alerta⟩, [])) :=
  ⟨fun ha => monitoreo_host_revive s t ha, fun ha => monitoreo_host_exito_vivo s t ha⟩

/-- A closed instance of `claim3_recuperacion`: recovery of a down host with 9
failures, and a silent reset after 3 sub-threshold failures. -/
theorem claim3_recuperacion_testigo :
    monitoreo_host ⟨false, 9, 5⟩ true 42 = (⟨true, 0, 42⟩, [Alerta.recuperado]) ∧
      monitoreo_host ⟨true, 3, 5⟩ true 42 = (⟨true, 0, 5⟩, []) :=
  ⟨(claim3_recuperacion ⟨false, 9, 5⟩ 42).1 rfl,
   (claim3_recuperacion ⟨true, 3, 5⟩ 42).2 rfl⟩

/-- C8: `monitoreo_host` stamps `ultima_alerta := now` in exactly the calls
that enqueue an alert, and leaves it untouched in every call that enqueues
none. -/
theorem claim8_ultima_alerta (s : EstadoHost) (r : Bool) (t : ℤ) :
    ((monitoreo_host s r t).2 ≠ [] →
      (monitoreo_host s r t).1.ultima_alerta = t) ∧
    ((monitoreo_host s r t).2 = [] →
      (monitoreo_host s r t).1.ultima_alerta = s.ultima_alerta) := by
  cases r with
  | false =>
    by_cases hf : MAX_FALLOS ≤ s.fallos + 1
    · cases ha : s.activo with
      | false =>
        by_cases hcd : INTERVALO_ALERTA_PERSISTENTE ≤ t - s.ultima_alerta
        · rw [monitoreo_host_persistente s t ha hf hcd]; simp
        · rw [monitoreo_host_fallo_callado s t ha hf hcd]; simp
      | true =>
        rw [monitoreo_host_caida s t ha hf]; simp
    · rw [monitoreo_host_fallo_bajo s t (by omega)]; simp
  | true =>
    cases ha : s.activo with
    | false => rw [monitoreo_host_revive s t ha]; simp
    | true => rw [monitoreo_host_exito_vivo s t ha]; simp

/-- A closed instance of `claim8_ultima_alerta`: an alerting call stamps the
time, an absorbed failure does not. -/
theorem claim8_ultima_alerta_testigo :
    (monitoreo_host ⟨true, 4, 3⟩ false 25).1.ultima_alerta = 25 ∧
      (monitoreo_host ⟨true, 0, 3⟩ false 25).1.ultima_alerta = 3 :=
  ⟨(claim8_ultima_alerta ⟨true, 4, 3⟩ false 25).1 (by decide),
   (claim8_ultima_alerta ⟨true, 0, 3⟩ false 25).2 (by decide)⟩

-- ================= DICTIONARY LEMMAS =================

/-- Membership in a dict is membership in its key list. -/
theorem contieneClave_eq {α : Type} (d : Dict α) (k : String) :
    contieneClave d k = decide (k ∈ claves d) := by
  induction d with
  | nil => rfl
  | cons p rest ih =>
    by_cases h : p.1 = k
    · simp [contieneClave, claves, h]
    · have h' : ¬ k = p.1 := fun hh => h hh.symm
      simp [contieneClave, claves, h, h', ih]

/-- Assignment keeps the key list, or appends the new key. -/
theorem claves_asigna {α : Type} (d : Dict α) (k : String) (v : α) :
    claves (asigna d k v) =
      if contieneClave d k then claves d else claves d ++ [k] := by
  induction d with
  | nil => simp [asigna, claves, contieneClave]
  | cons p rest ih =>
    by_cases h : p.1 = k
    · simp [asigna, claves, contieneClave, h]
    · simp only [asigna, claves, contieneClave, h, if_false, ih]
      split_ifs <;> simp

/-- Two dicts with equal key lists have equal key lists after assigning the
same key. -/
theorem claves_asigna_congr {α β : Type} (d1 : Dict α) (d2 : Dict β)
    (k : String) (v : α) (w : β) (h : claves d1 = claves d2) :
    claves (asigna d1 k v) = claves (asigna d2 k w) := by
  rw [claves_asigna, claves_asigna, contieneClave_eq, contieneClave_eq, h]

/-- Deletion filters the key list. -/
theorem claves_borra {α : Type} (d : Dict α) (k : String) :
    claves (borra d k) = (claves d).filter (fun a => decide (a ≠ k)) := by
  induction d with
  | nil => rfl
  | cons p rest ih =>
    by_cases h : p.1 = k <;> simp [borra, claves, h, ih]

/-- An update rewrites key lists the same way on dicts with equal key
lists, for updates with equal key lists. -/
theorem claves_actualiza_congr {α β : Type} :
    ∀ (e1 : Dict α) (e2 : Dict β) (d1 : Dict α) (d2 : Dict β),
      claves e1 = claves e2 → claves d1 = claves d2 →
      claves (actualiza d1 e1) = claves (actualiza d2 e2) := by
  intro e1
  induction e1 with
  | nil =>
    intro e2 d1 d2 he hd
    cases e2 with
    | nil => exact hd
    | cons q rest2 => simp [claves] at he
  | cons p rest ih =>
    intro e2 d1 d2 he hd
    cases e2 with
    | nil => simp [claves] at he
    | cons q rest2 =>
      simp only [claves, List.cons.injEq] at he
      exact ih rest2 (asigna d1 p.1 p.2) (asigna d2 q.1 q.2) he.2
        (he.1 ▸ claves_asigna_congr d1 d2 p.1 p.2 q.2 hd)

/-- Re-labelling every value keeps the key list. -/
theorem claves_map_valor {α β : Type} (d : Dict α) (c : β) :
    claves (d.map (fun p => (p.1, c))) = claves d := by
  induction d with
  | nil => rfl
  | cons p rest ih => simp [claves, ih]

/-- Lookup after assignment. -/
theorem busca_asigna {α : Type} (d : Dict α) (k k' : String) (v : α) :
    busca (asigna d k v) k' = if k' = k then some v else busca d k' := by
  induction d with
  | nil =>
    by_cases h : k' = k
    · simp [asigna, busca, h]
    · have hk : ¬ k = k' := fun hh => h hh.symm
      simp [asigna, busca, h, hk]
  | cons p rest ih =>
    by_cases h : p.1 = k
    · by_cases h' : k' = k
      · simp [asigna, busca, h, h']
      · have hk : ¬ k = k' := fun hh => h' hh.symm
        simp [asigna, busca, h, h', hk]
    · by_cases hp : p.1 = k'
      · have h' : ¬ k' = k := fun hh => h (by rw [hp]; exact hh)
        simp [asigna, busca, h, hp, h']
      · simp [asigna, busca, h, hp, ih]

/-- Lookup misses keys that are absent. -/
theorem busca_no_miembro {α : Type} (d : Dict α) (k : String)
    (h : k ∉ claves d) : busca d k = none := by
  induction d with
  | nil => rfl
  | cons p rest ih =>
    simp only [claves, List.mem_cons, not_or] at h
    have hp : ¬ p.1 = k := fun hh => h.1 hh.symm
    simp [busca, hp, ih h.2]

/-- A lookup returns `none` exactly on absent keys. -/
theorem busca_none_iff {α : Type} (d : Dict α) (k : String) :
    busca d k = none ↔ contieneClave d k = false := by
  induction d with
  | nil => simp [busca, contieneClave]
  | cons p rest ih =>
    by_cases h : p.1 = k <;> simp [busca, contieneClave, h, ih]

/-- Lookup after a whole update with duplicate-free keys: the update wins on
its own keys and the base dict answers elsewhere. -/
theorem busca_actualiza {α : Type} :
    ∀ (e d : Dict α) (k : String), (claves e).Nodup →
      busca (actualiza d e) k =
        (match busca e k with
          | some v => some v
          | none => busca d k) := by
  intro e
  induction e with
  | nil => intro d k _; rfl
  | cons p rest ih =>
    intro d k hnd
    simp only [claves, List.nodup_cons] at hnd
    rw [show actualiza d (p :: rest) = actualiza (asigna d p.1 p.2) rest from rfl,
      ih (asigna d p.1 p.2) k hnd.2]
    by_cases h : k = p.1
    · subst h
      simp [busca_no_miembro rest p.1 hnd.1, busca, busca_asigna]
    · have hp : ¬ p.1 = k := fun hh => h hh.symm
      cases hr : busca rest k <;> simp [busca, hp, hr, busca_asigna, h]

-- ================= CLAIMS ON PING, PERSISTENCE AND THE REGISTRY =================

/-- C4 fails on the code: for the well-formed address `192.168.0.10`, a
probe-command invocation that raises `OSError` — e.g. `FileNotFoundError`
when the probe binary is missing, as `ping6` commonly is — is not caught by
`except (subprocess.SubprocessError, ValueError)` (`main.py` line 88), so
`ping` propagates the exception to its caller instead of returning `False`;
the alternative entry point's identical handler shares the flaw. -/
theorem claim4_contraejemplo :
    ping "192.168.0.10" ResultadoSubproceso.errorOS =
      Except.error ErrorPing.osError ∧
    ping_alternativo "2001:db8::1" ResultadoSubproceso.errorOS =
      Except.error ErrorPing.osError := ⟨rfl, rfl⟩

/-- C4 amended: `ping` never raises for a malformed address (`ValueError`),
for a probe invocation failing with `subprocess.SubprocessError`, or for a
timeout (the probe's own `-w` deadline makes it exit nonzero) — each such
call returns a boolean, resolving the failure cases to `false`; but an
`OSError` raised by the probe-command invocation is outside the `except`
clause and propagates to the caller.  The `ping` of the alternative entry
point behaves identically. -/
theorem claim4_ping_enmendado (ip : String) (sub : ResultadoSubproceso) :
    ping ip sub =
      (match ip_address ip, sub with
        | none, _ => Except.ok false
        | some _, ResultadoSubproceso.errorSubproceso => Except.ok false
        | some _, ResultadoSubproceso.errorOS => Except.error ErrorPing.osError
        | some _, ResultadoSubproceso.codigo c => Except.ok (c == 0)) ∧
    ping_alternativo ip sub = ping ip sub := by
  unfold ping ping_alternativo pingIntenta
  cases h : ip_address ip <;> cases sub <;> simp

/-- C9: `guardar_hosts` writes the serialized current host map — addresses
and display names only, `estados` is not an input — into the snapshot file,
and the backup file receives the previous snapshot exactly when one existed,
staying untouched otherwise. -/
theorem claim9_respaldo_antes_de_escribir (fs : Archivos) (h : Grupo → Dict String) :
    (guardar_hosts fs h).persistencia = some (serializa h) ∧
    (guardar_hosts fs h).respaldo =
      (if fs.persistencia.isSome then fs.persistencia else fs.respaldo) :=
  ⟨rfl, rfl⟩

/-- C7: per group, the key list of the `hosts` map equals the key list of
the `estados` state map: it holds after bootstrap and is preserved by the
add-host mutation, the remove-host mutation and `cargar_hosts`. -/
theorem claim7_claves_iguales :
    (∀ h : Grupo → Dict String, clavesIguales (sistemaDe h)) ∧
    (∀ s g ip nombre, clavesIguales s →
      clavesIguales (confirmar_agregar s g ip nombre)) ∧
    (∀ s g ip, clavesIguales s → clavesIguales (confirmar_eliminar s g ip)) ∧
    (∀ s archivo, clavesIguales s → clavesIguales (cargar_hosts s archivo)) := by
  refine ⟨?_, ?_, ?_, ?_⟩
  · intro h g
    exact (claves_map_valor (h g) estadoHostInicial).symm
  · intro s g ip nombre hk g'
    by_cases h : g' = g
    · simp only [confirmar_agregar, h, if_pos rfl]
      exact claves_asigna_congr _ _ ip nombre estadoHostInicial (hk g)
    · simpa [confirmar_agregar, h] using hk g'
  · intro s g ip hk g'
    unfold confirmar_eliminar
    split_ifs with h
    · by_cases hg : g' = g
      · simp [hg]
        rw [claves_borra, claves_borra, hk g]
      · simpa [hg] using hk g'
    · exact hk g'
  · intro s archivo hk g'
    cases archivo with
    | none => exact hk g'
    | some datos =>
      cases hd : datos g' with
      | none => simpa [cargar_hosts, hd] using hk g'
      | some dg =>
        simp only [cargar_hosts, hd]
        exact claves_actualiza_congr dg _ (s.hosts g') _
          (claves_map_valor dg estadoHostInicial).symm (hk g')

/-- A closed instance of `claim7_claves_iguales`: adding then removing a host
in the boot registry keeps the key sets aligned. -/
theorem claim7_claves_iguales_testigo :
    clavesIguales (confirmar_eliminar
      (confirmar_agregar sistemaInicial Grupo.cctv "192.168.0.77" "CamaraNueva")
      Grupo.cctv "192.168.0.10") :=
  claim7_claves_iguales.2.2.1
    (confirmar_agregar sistemaInicial Grupo.cctv "192.168.0.77" "CamaraNueva")
    Grupo.cctv "192.168.0.10"
    (claim7_claves_iguales.2.1 sistemaInicial Grupo.cctv "192.168.0.77" "CamaraNueva"
      (claim7_claves_iguales.1 hostsIniciales))

/-- C5 fails on the code: `cargar_hosts` unions the persisted map into the
baked-in initial set, so a host removed before saving is resurrected by the
load.  Saving the registry in which the baked-in CCTV host was removed, then
loading the file back into a fresh boot registry, yields a CCTV mapping that
still contains the removed host and therefore differs from the saved
mapping. -/
theorem claim5_contraejemplo :
    busca ((cargar_hosts sistemaInicial
        (guardar_hosts ⟨none, none⟩
          ((confirmar_eliminar sistemaInicial Grupo.cctv
            "192.168.0.10").hosts)).persistencia).hosts Grupo.cctv)
      "192.168.0.10" ≠
    busca ((confirmar_eliminar sistemaInicial Grupo.cctv "192.168.0.10").hosts
      Grupo.cctv) "192.168.0.10" := by decide

/-- C5 amended: save-then-load reproduces the saved address→name mapping on
every group whose saved map (with duplicate-free keys, as Python dicts
guarantee) still contains every baked-in address of that group; `cargar`'s
union gives the persisted entries precedence, so only addresses missing from
the saved map can diverge. -/
theorem claim5_guardar_cargar_enmendado (ini R : Grupo → Dict String)
    (g : Grupo) (k : String) (hnd : (claves (R g)).Nodup)
    (hsub : ∀ a, contieneClave (ini g) a = true → contieneClave (R g) a = true) :
    busca ((cargar_hosts (sistemaDe ini)
        (guardar_hosts ⟨none, none⟩ R).persistencia).hosts g) k =
      busca (R g) k := by
  have hred : (cargar_hosts (sistemaDe ini)
      (guardar_hosts ⟨none, none⟩ R).persistencia).hosts g
      = actualiza (ini g) (R g) := rfl
  rw [hred, busca_actualiza (R g) (ini g) k hnd]
  cases hr : busca (R g) k with
  | some v => rfl
  | none =>
    have hcr : contieneClave (R g) k = false := (busca_none_iff _ _).mp hr
    have hci : contieneClave (ini g) k = false := by
      cases hc : contieneClave (ini g) k
      · rfl
      · rw [hsub k hc] at hcr; cases hcr
    exact (busca_none_iff _ _).mpr hci

/-- A closed instance of `claim5_guardar_cargar_enmendado`: an unmodified
boot registry round-trips. -/
theorem claim5_guardar_cargar_enmendado_testigo :
    busca ((cargar_hosts (sistemaDe hostsIniciales)
        (guardar_hosts ⟨none, none⟩ hostsIniciales).persistencia).hosts
        Grupo.cctv) "192.168.0.10" =
      busca (hostsIniciales Grupo.cctv) "192.168.0.10" :=
  claim5_guardar_cargar_enmendado hostsIniciales hostsIniciales Grupo.cctv
    "192.168.0.10" (by decide) (fun _ h => h)

/-- C6 fails on the code: the start-all handler spawns a fresh
`monitoreo_grupo_thread` per enabled group without checking whether a loop is
already running, so issuing it twice reaches a state with two live loops for
the CCTV group — and both keep running, since the group and the global flag
stay enabled. -/
theorem claim6_bucles_duplicados :
    ∃ s : Monitoreo, Alcanzable s ∧ s.hilos Grupo.cctv = 2 := by
  refine ⟨_, Relation.ReflTransGen.head (Paso.iniciar_todo monitoreoInicial)
    (Relation.ReflTransGen.single (Paso.iniciar_todo _)), ?_⟩
  rfl

/-- C10: the duplicate check of `recibir_ip` tests the raw entered string
against the stored keys while `confirmar_agregar` stores under the canonical
`str(ipaddress.ip_address(...))` spelling: the uppercase spelling
`2001:DB8::1` of the already-stored address `2001:db8::1` passes the check,
and confirming then silently replaces the stored host's display name under
the canonical key instead of being rejected as a duplicate. -/
theorem claim10_duplicado_no_canonico :
    "2001:DB8::1" ≠ "2001:db8::1" ∧
    ip_address "2001:DB8::1" = ip_address "2001:db8::1" ∧
    recibir_ip [("2001:db8::1", "CamaraVieja")] "2001:DB8::1" =
      RespuestaIp.pedirNombre "2001:db8::1" ∧
    (confirmar_agregar
        (sistemaDe (fun g =>
          if g = Grupo.cctv then [("2001:db8::1", "CamaraVieja")] else []))
        Grupo.cctv "2001:db8::1" "CamaraNueva").hosts Grupo.cctv =
      [("2001:db8::1", "CamaraNueva")] :=
  ⟨by decide, by decide, by decide, by decide⟩

example : ip_address "192.168.1.10" = some (DireccionIp.v4 192 168 1 10) := by decide
example : (ip_address "192.168.1.10").map textoIp = some "192.168.1.10" := by decide
example : ip_address "2001:DB8::1" =
    some (DireccionIp.v6 [8193, 3512, 0, 0, 0, 0, 0, 1]) := by decide
example : ip_address "2001:db8::1" = ip_address "2001:DB8::1" := by decide
example : (ip_address "2001:DB8::1").map textoIp = some "2001:db8::1" := by decide
example : ip_address "hola" = none := by decide
example : ip_address "" = none := by decide
example : ip_address "999.1.1.1" = none := by decide
example : ip_address "1.2.3.04" = none := by decide
example : ip_address "1:2:3:4:5:6:7:8" =
    some (DireccionIp.v6 [1, 2, 3, 4, 5, 6, 7, 8]) := by decide
example : ip_address "1::2::3" = none := by decide
example : ip_address "::" = some (DireccionIp.v6 [0, 0, 0, 0, 0, 0, 0, 0]) := by decide
example : (ip_address "::").map textoIp = some "::" := by decide

end ZurichBot
